import Mathlib

/-!
Shallow embedding of the BooksApiService catalog layer: the raw record
model, the normalization functions of transformBookData and
transformBooksData, the in-memory TTL cache of the service, and the three
public operations searchBooks, getAllBooks and getBookDetails.  Impure
inputs of the JavaScript code are explicit parameters here: the wall clock
is a natural number, and the outcome of the single outbound HTTP request
an operation may make is passed in as a NetResult oracle.  JavaScript
truthiness on optional strings and numbers is modelled by the js* helper
functions.
-/

namespace BooksApi

/-- JS truthiness of an optional string: undefined, null and the empty
string are falsy. -/
def strTruthy : Option String → Bool
  | none => false
  | some s => !(s == "")

/-- JS `a || b` on optional strings. -/
def jsOrStr (a b : Option String) : Option String :=
  if strTruthy a then a else b

/-- JS `a || null` on an optional string. -/
def jsOrNull (a : Option String) : Option String :=
  if strTruthy a then a else none

/-- JS `a || d` where d is a plain default string. -/
def jsOrDefault (a : Option String) (d : String) : String :=
  match a with
  | none => d
  | some s => if s == "" then d else s

/-- JS `a || null` on an optional number (0 is falsy). -/
def jsOrNullNat (a : Option Nat) : Option Nat :=
  match a with
  | none => none
  | some n => if n == 0 then none else some n

/-- JS `a || d` on an optional number with a numeric default. -/
def jsOrNat (a : Option Nat) (d : Nat) : Nat :=
  match a with
  | none => d
  | some n => if n == 0 then d else n

/-- JS String.prototype.trim: drop whitespace from both ends. -/
def jsTrim (s : String) : String :=
  ⟨((s.data.dropWhile Char.isWhitespace).reverse.dropWhile Char.isWhitespace).reverse⟩

/-- Case normalization on strings (used only to state the key-determinism
claim; the service itself never lower-cases queries). -/
def jsToLower (s : String) : String :=
  ⟨s.data.map Char.toLower⟩

/-- JS Array.prototype.join with a separator. -/
def jsJoin (sep : String) : List String → String
  | [] => ""
  | [s] => s
  | s :: rest => s ++ sep ++ jsJoin sep rest

/-- An entry of industryIdentifiers: a pair of a type tag and an
identifier string. -/
structure IndustryIdentifier where
  type : String
  identifier : String
deriving DecidableEq

/-- A JSON field that may hold either a string or a list of strings
(authors and categories arrive in both shapes). -/
inductive StrOrList where
  | str (s : String)
  | list (l : List String)
deriving DecidableEq

/-- Raw imageLinks object of a catalog record. -/
structure ImageLinks where
  thumbnail : Option String
  smallThumbnail : Option String
  medium : Option String
  large : Option String
deriving DecidableEq

/-- A raw book record as parsed from the catalog API response.  Absent
JSON fields are none. -/
structure RawBook where
  id : Option String
  title : Option String
  authors : Option StrOrList
  description : Option String
  publishedDate : Option String
  publisher : Option String
  language : Option String
  pageCount : Option Nat
  categories : Option StrOrList
  industryIdentifiers : Option (List IndustryIdentifier)
  imageLinks : Option ImageLinks
  previewLink : Option String
  infoLink : Option String
  averageRating : Option Nat
  ratingsCount : Option Nat
deriving DecidableEq

/-- The imageLinks sub-object of the normalized record. -/
structure NormalizedImageLinks where
  thumbnail : Option String
  small : Option String
  medium : Option String
  large : Option String
deriving DecidableEq

/-- The normalized book record built by transformBookData. -/
structure BookRecord where
  bookId : String
  titulo : String
  autor : String
  portadaUrl : Option String
  imageLinks : NormalizedImageLinks
  sinopsis : Option String
  anoPublicacion : Option Nat
  fechaPublicacion : Option String
  editorial : Option String
  idioma : String
  numeroPaginas : Option Nat
  generos : List String
  categorias : StrOrList
  isbn : Option String
  industryIdentifiers : List IndustryIdentifier
  previewLink : Option String
  infoLink : Option String
  rating : Option Nat
  ratingsCount : Nat
  transformedAt : Nat
deriving DecidableEq

/-- Defaulting of book.imageLinks: absent image objects become an object
with every variant absent. -/
def imageLinksOf : Option ImageLinks → ImageLinks
  | none => ⟨none, none, none, none⟩
  | some il => il

/-- Authors as a list: book.authors defaulted to the empty array, a lone
string wrapped into a singleton array. -/
def authorsList : Option StrOrList → List String
  | none => []
  | some (.str s) => if s == "" then [] else [s]
  | some (.list l) => l

/-- Categories as a list: book.categories defaulted to the empty array, a
lone string wrapped into a singleton array. -/
def categoriesList : Option StrOrList → List String
  | none => []
  | some (.str s) => if s == "" then [] else [s]
  | some (.list l) => l

/-- The categorias output field keeps the raw shape of book.categories,
only defaulting falsy values to the empty array. -/
def jsOrEmptyCats : Option StrOrList → StrOrList
  | none => .list []
  | some (.str s) => if s == "" then .list [] else .str s
  | some (.list l) => .list l

/-- Author display string: the joined author list, defaulted to the
unknown-author fallback when empty. -/
def autorOf (a : Option StrOrList) : String :=
  let joined := jsJoin ", " (authorsList a)
  if joined == "" then "Autor desconocido" else joined

/-- Cover url: the first truthy variant among thumbnail, smallThumbnail,
medium and large, else null. -/
def portadaOf (il : ImageLinks) : Option String :=
  jsOrStr il.thumbnail (jsOrStr il.smallThumbnail (jsOrStr il.medium (jsOrNull il.large)))

/-- The normalized imageLinks object copies the four variants verbatim. -/
def normImagesOf (il : ImageLinks) : NormalizedImageLinks :=
  ⟨il.thumbnail, il.smallThumbnail, il.medium, il.large⟩

/-- The isbn field: identifier of the first entry whose type is ISBN_13
or ISBN_10, defaulted to null when absent or falsy. -/
def isbnOf (ids : List IndustryIdentifier) : Option String :=
  match ids.find? (fun i => i.type == "ISBN_13" || i.type == "ISBN_10") with
  | some i => jsOrNull (some i.identifier)
  | none => none

/-- Numeric value of a decimal digit character. -/
def decDigit (c : Char) : Nat := c.toNat - 48

/-- First run of four consecutive decimal digits in a character list,
mirroring the regex match for four digits used by extractYear. -/
def firstFourDigits : List Char → Option (List Char)
  | c1 :: c2 :: c3 :: c4 :: rest =>
    if c1.isDigit && c2.isDigit && c3.isDigit && c4.isDigit then
      some [c1, c2, c3, c4]
    else firstFourDigits (c2 :: c3 :: c4 :: rest)
  | _ => none
termination_by l => l.length

/-- Decimal value of a digit list, most significant digit first. -/
def decValue (l : List Char) : Nat :=
  l.foldl (fun a c => 10 * a + decDigit c) 0

/-- extractYear: null for a falsy date string, else the first four-digit
run parsed as an integer. -/
def extractYear : Option String → Option Nat
  | none => none
  | some s =>
    if s == "" then none
    else
      match firstFourDigits s.data with
      | some ds => some (decValue ds)
      | none => none

/-- transformBookData: null when the record is absent or its id is falsy,
otherwise the normalized record.  The transformedAt field records the
wall clock passed in for `new Date().toISOString()`. -/
def transformBookData (book : Option RawBook) (now : Nat) : Option BookRecord :=
  match book with
  | none => none
  | some b =>
    match b.id with
    | none => none
    | some bid =>
      if bid == "" then none
      else
        some {
          bookId := bid
          titulo := jsOrDefault b.title "Título no disponible"
          autor := autorOf b.authors
          portadaUrl := portadaOf (imageLinksOf b.imageLinks)
          imageLinks := normImagesOf (imageLinksOf b.imageLinks)
          sinopsis := jsOrNull b.description
          anoPublicacion := extractYear b.publishedDate
          fechaPublicacion := jsOrNull b.publishedDate
          editorial := jsOrNull b.publisher
          idioma := jsOrDefault b.language "es"
          numeroPaginas := jsOrNullNat b.pageCount
          generos := categoriesList b.categories
          categorias := jsOrEmptyCats b.categories
          isbn := isbnOf (b.industryIdentifiers.getD [])
          industryIdentifiers := b.industryIdentifiers.getD []
          previewLink := jsOrNull b.previewLink
          infoLink := jsOrNull b.infoLink
          rating := jsOrNullNat b.averageRating
          ratingsCount := b.ratingsCount.getD 0
          transformedAt := now
        }

/-- The books field of a response body: absent or falsy, present but not
an array, or an actual array whose elements may individually be null. -/
inductive BooksField where
  | missing
  | notArray
  | arr (books : List (Option RawBook))
deriving DecidableEq

/-- Defaulting of the books field at the call sites of
transformBooksData: a falsy field becomes the empty array. -/
def jsBooksOrEmpty : BooksField → BooksField
  | .missing => .arr []
  | x => x

/-- transformBooksData: empty list for a non-array argument, else map each
element through transformBookData and drop the nulls. -/
def transformBooksData (books : BooksField) (now : Nat) : List BookRecord :=
  match books with
  | .arr l => (l.map (fun b => transformBookData b now)).filterMap id
  | _ => []

/-- A cached value: a normalized list, a single normalized record, or the
null produced by a failed single-record normalization. -/
inductive CacheValue where
  | list (books : List BookRecord)
  | book (b : BookRecord)
  | nullv
deriving DecidableEq

/-- A cache entry: the stored value and its insertion timestamp. -/
structure CacheEntry where
  data : CacheValue
  timestamp : Nat
deriving DecidableEq

/-- The in-memory cache Map, as an insertion-ordered association list. -/
abbrev Cache := List (String × CacheEntry)

/-- Map.prototype.get. -/
def mapGet (c : Cache) (k : String) : Option CacheEntry :=
  match c.find? (fun p => p.1 == k) with
  | some p => some p.2
  | none => none

/-- Map.prototype.delete. -/
def mapDelete (c : Cache) (k : String) : Cache :=
  c.filter (fun p => !(p.1 == k))

/-- Map.prototype.set: replace in place when the key exists, else append
in insertion order. -/
def mapSet (c : Cache) (k : String) (v : CacheEntry) : Cache :=
  if c.any (fun p => p.1 == k) then
    c.map (fun p => if p.1 == k then (k, v) else p)
  else c ++ [(k, v)]

/-- isValidCache: reports whether the entry under the key is present and
fresh, deleting it as a side effect when present but expired.  Returns the
validity flag together with the possibly-updated cache. -/
def isValidCache (c : Cache) (k : String) (now ttl : Nat) : Bool × Cache :=
  match mapGet c k with
  | none => (false, c)
  | some e =>
    if now - e.timestamp < ttl then (true, c)
    else (false, mapDelete c k)

/-- clearOldCache: remove every entry strictly older than the TTL. -/
def clearOldCache (c : Cache) (now ttl : Nat) : Cache :=
  c.filter (fun p => !(decide (ttl < now - p.2.timestamp)))

/-- setCache: insert the value with the current timestamp, then sweep when
the entry count exceeds 100. -/
def setCache (c : Cache) (k : String) (v : CacheValue) (now ttl : Nat) : Cache :=
  let c1 := mapSet c k ⟨v, now⟩
  if 100 < c1.length then clearOldCache c1 now ttl else c1

/-- getCacheStats payload. -/
structure CacheStats where
  entries : Nat
  maxSize : Nat
  timeoutMinutes : Nat
deriving DecidableEq

/-- getCacheStats: entry count, hard-coded maximum, TTL in minutes. -/
def getCacheStats (c : Cache) (ttl : Nat) : CacheStats :=
  ⟨c.length, 100, ttl / 60000⟩

/-- The outcome the network oracle reports for the one outbound request an
operation may make. -/
inductive NetResult (α : Type) where
  | ok (data : α)
  | err (msg : String)
deriving DecidableEq

/-- Parsed body of a search or catalog response. -/
structure SearchBody where
  books : BooksField
  totalItems : Option Nat
deriving DecidableEq

/-- The uniform result object of the public operations; absent JS object
fields are none. -/
structure ApiResult where
  success : Bool
  data : Option CacheValue
  totalItems : Option Nat
  fromCache : Option Bool
  error : Option String
deriving DecidableEq

/-- The observable outcome of one public operation: its result object, the
cache afterwards, and how many outbound requests were made. -/
structure OpOut where
  result : ApiResult
  cache : Cache
  calls : Nat
deriving DecidableEq

/-- The cache key derived by searchBooks from the trimmed query and the
result-size bound. -/
def searchCacheKey (cleanQuery : String) (maxResults : Nat) : String :=
  "search_" ++ cleanQuery ++ "_" ++ Nat.repr maxResults

/-- The short-circuit cache check `useCache && isValidCache(cacheKey)`:
the cache is only consulted (and an expired entry only deleted) when
useCache is set. -/
def cacheChecked (useCache : Bool) (cache : Cache) (k : String) (now ttl : Nat) :
    Bool × Cache :=
  if useCache then isValidCache cache k now ttl else (false, cache)

/-- searchBooks: validate the query, consult the cache, otherwise issue
the request, normalize, store and return. -/
def searchBooks (query : Option String) (maxResults? : Option Nat) (useCache : Bool)
    (defaultMaxResults : Nat) (cache : Cache) (ttl now : Nat)
    (net : NetResult SearchBody) : OpOut :=
  if !strTruthy query || decide ((jsTrim (query.getD "")).length < 2) then
    ⟨⟨false, none, none, none, some "La búsqueda debe tener al menos 2 caracteres"⟩, cache, 0⟩
  else
    let cleanQuery := jsTrim (query.getD "")
    let maxResults := maxResults?.getD defaultMaxResults
    let cacheKey := searchCacheKey cleanQuery maxResults
    let checked := cacheChecked useCache cache cacheKey now ttl
    if checked.1 then
      ⟨⟨true, (mapGet checked.2 cacheKey).map (fun e => e.data), none, some true, none⟩,
        checked.2, 0⟩
    else
      match net with
      | .err e => ⟨⟨false, none, none, none, some e⟩, checked.2, 1⟩
      | .ok body =>
        let transformedBooks := transformBooksData (jsBooksOrEmpty body.books) now
        let cache2 :=
          if useCache then setCache checked.2 cacheKey (.list transformedBooks) now ttl
          else checked.2
        ⟨⟨true, some (.list transformedBooks),
            some (jsOrNat body.totalItems transformedBooks.length), some false, none⟩,
          cache2, 1⟩

/-- getAllBooks: consult the cache under the fixed catalog key, otherwise
issue the request, normalize, store and return (without totalItems). -/
def getAllBooks (useCache : Bool) (cache : Cache) (ttl now : Nat)
    (net : NetResult SearchBody) : OpOut :=
  let cacheKey := "all_books"
  let checked := cacheChecked useCache cache cacheKey now ttl
  if checked.1 then
    ⟨⟨true, (mapGet checked.2 cacheKey).map (fun e => e.data), none, some true, none⟩,
      checked.2, 0⟩
  else
    match net with
    | .err e => ⟨⟨false, none, none, none, some e⟩, checked.2, 1⟩
    | .ok body =>
      let transformedBooks := transformBooksData (jsBooksOrEmpty body.books) now
      let cache2 :=
        if useCache then setCache checked.2 cacheKey (.list transformedBooks) now ttl
        else checked.2
      ⟨⟨true, some (.list transformedBooks), none, some false, none⟩, cache2, 1⟩

/-- getBookDetails: validate the id, consult the cache, otherwise issue
the request, normalize the single record and store the outcome, null
included. -/
def getBookDetails (bookId : Option String) (useCache : Bool) (cache : Cache)
    (ttl now : Nat) (net : NetResult (Option RawBook)) : OpOut :=
  if !strTruthy bookId then
    ⟨⟨false, none, none, none, some "ID de libro es requerido"⟩, cache, 0⟩
  else
    let cacheKey := "book_" ++ bookId.getD ""
    let checked := cacheChecked useCache cache cacheKey now ttl
    if checked.1 then
      ⟨⟨true, (mapGet checked.2 cacheKey).map (fun e => e.data), none, some true, none⟩,
        checked.2, 0⟩
    else
      match net with
      | .err e => ⟨⟨false, none, none, none, some e⟩, checked.2, 1⟩
      | .ok rawBook =>
        let transformedBook := transformBookData rawBook now
        let v := match transformedBook with
          | some b => CacheValue.book b
          | none => CacheValue.nullv
        let cache2 :=
          if useCache then setCache checked.2 cacheKey v now ttl else checked.2
        ⟨⟨true, some v, none, some false, none⟩, cache2, 1⟩

/-! Helper development: correctness of the decimal rendering used inside
cache keys, and basic lemmas about the cache map operations. -/

/-- Decimal digits of a natural number, least significant first. -/
def decDigitsRev (n : Nat) : List Char :=
  if h : n < 10 then [Nat.digitChar n]
  else Nat.digitChar (n % 10) :: decDigitsRev (n / 10)
decreasing_by exact Nat.div_lt_self (by omega) (by omega)

/-- Decimal value of a digit list, least significant digit first. -/
def decValueRev (l : List Char) : Nat :=
  l.foldr (fun c a => 10 * a + decDigit c) 0

theorem decDigit_digitChar (d : Nat) (h : d < 10) : decDigit (Nat.digitChar d) = d := by
  interval_cases d <;> rfl

theorem decValueRev_decDigitsRev (n : Nat) : decValueRev (decDigitsRev n) = n := by
  induction n using Nat.strong_induction_on with
  | _ n ih =>
    rw [decDigitsRev]
    split
    · next h =>
      simp [decValueRev, decDigit_digitChar n h]
    · next h =>
      have h10 : n / 10 < n := Nat.div_lt_self (by omega) (by omega)
      have ih2 := ih _ h10
      unfold decValueRev at ih2 ⊢
      simp only [List.foldr_cons]
      rw [ih2, decDigit_digitChar _ (Nat.mod_lt _ (by omega))]
      omega

theorem toDigitsCore_eq_decDigits (fuel : Nat) :
    ∀ (n : Nat) (ds : List Char), n < fuel →
      Nat.toDigitsCore 10 fuel n ds = (decDigitsRev n).reverse ++ ds := by
  induction fuel with
  | zero => intro n ds h; omega
  | succ f ih =>
    intro n ds h
    simp only [Nat.toDigitsCore]
    by_cases h0 : n / 10 = 0
    · have hn : n < 10 := (Nat.div_eq_zero_iff (by norm_num)).mp h0
      rw [if_pos h0, decDigitsRev, dif_pos hn, Nat.mod_eq_of_lt hn]
      simp
    · have hn : ¬ n < 10 := by
        intro hc
        exact h0 ((Nat.div_eq_zero_iff (by norm_num)).mpr hc)
      have hlt : n / 10 < f := by
        have hdiv : n / 10 < n := Nat.div_lt_self (by omega) (by omega)
        omega
      rw [if_neg h0, ih _ _ hlt]
      conv_rhs => rw [decDigitsRev]
      rw [dif_neg hn]
      simp

theorem repr_data (n : Nat) : (Nat.repr n).data = (decDigitsRev n).reverse := by
  show (Nat.toDigits 10 n).asString.data = (decDigitsRev n).reverse
  unfold Nat.toDigits
  rw [toDigitsCore_eq_decDigits (n + 1) n [] (by omega)]
  simp [List.asString]

theorem repr_injective {m n : Nat} (h : (Nat.repr m).data = (Nat.repr n).data) : m = n := by
  rw [repr_data, repr_data] at h
  have h2 := congrArg List.reverse h
  simp only [List.reverse_reverse] at h2
  have h3 := congrArg decValueRev h2
  rwa [decValueRev_decDigitsRev, decValueRev_decDigitsRev] at h3

theorem string_data_append (a b : String) : (a ++ b).data = a.data ++ b.data := by
  cases a; cases b; rfl

theorem mem_isValidCache (c : Cache) (k : String) (now ttl : Nat) (p : String × CacheEntry)
    (hp : p ∈ (isValidCache c k now ttl).2) : p ∈ c := by
  unfold isValidCache at hp
  cases heq : mapGet c k with
  | none => simp only [heq] at hp; exact hp
  | some e =>
    simp only [heq] at hp
    by_cases hf : now - e.timestamp < ttl
    · rw [if_pos hf] at hp; exact hp
    · rw [if_neg hf] at hp
      exact (List.mem_filter.mp hp).1

theorem isValidCache_true (c : Cache) (k : String) (now ttl : Nat)
    (h : (isValidCache c k now ttl).1 = true) :
    ∃ e, mapGet c k = some e ∧ now - e.timestamp < ttl ∧ (isValidCache c k now ttl).2 = c := by
  unfold isValidCache at h
  cases heq : mapGet c k with
  | none => simp only [heq] at h; simp at h
  | some e =>
    simp only [heq] at h
    by_cases hf : now - e.timestamp < ttl
    · exact ⟨e, rfl, hf, by simp [isValidCache, heq, hf]⟩
    · rw [if_neg hf] at h; simp at h

theorem mapGet_map_replace (c : Cache) (k : String) (e : CacheEntry)
    (h : c.any (fun p => p.1 == k) = true) :
    mapGet (c.map (fun p => if p.1 == k then (k, e) else p)) k = some e := by
  induction c with
  | nil => simp at h
  | cons p t ih =>
    simp only [List.any_cons, Bool.or_eq_true] at h
    by_cases hp : (p.1 == k) = true
    · simp only [List.map_cons, if_pos hp]
      simp [mapGet]
    · simp only [List.map_cons, if_neg hp]
      have hfind := ih (h.resolve_left hp)
      unfold mapGet at hfind ⊢
      rw [List.find?_cons_of_neg _ (by simpa using hp)]
      exact hfind

theorem mapGet_append_right (c : Cache) (k : String) (e : CacheEntry)
    (h : c.any (fun p => p.1 == k) = false) :
    mapGet (c ++ [(k, e)]) k = some e := by
  induction c with
  | nil => simp [mapGet]
  | cons p t ih =>
    simp only [List.any_cons, Bool.or_eq_false_iff] at h
    unfold mapGet at ih ⊢
    rw [List.cons_append, List.find?_cons_of_neg _ (by simp [h.1])]
    exact ih h.2

theorem mapGet_mapSet_self (c : Cache) (k : String) (e : CacheEntry) :
    mapGet (mapSet c k e) k = some e := by
  unfold mapSet
  by_cases hany : c.any (fun p => p.1 == k) = true
  · rw [if_pos hany]; exact mapGet_map_replace c k e hany
  · rw [if_neg hany]; exact mapGet_append_right c k e (Bool.eq_false_iff.mpr hany)

theorem mapSet_key_entries (c : Cache) (k : String) (e : CacheEntry) :
    ∀ p ∈ mapSet c k e, p.1 = k → p.2 = e := by
  intro p hp hk
  unfold mapSet at hp
  by_cases hany : c.any (fun q => q.1 == k) = true
  · rw [if_pos hany] at hp
    obtain ⟨q, hq, hqe⟩ := List.mem_map.mp hp
    by_cases hqk : (q.1 == k) = true
    · rw [if_pos hqk] at hqe; rw [← hqe]
    · rw [if_neg hqk] at hqe
      subst hqe
      exact absurd (by simpa using hk) hqk
  · rw [if_neg hany] at hp
    rcases List.mem_append.mp hp with hc | hs
    · exfalso
      have hb : (p.1 == k) = true := by simpa using hk
      exact hany (List.any_eq_true.mpr ⟨p, hc, hb⟩)
    · have : p = (k, e) := by simpa using hs
      rw [this]

theorem mapGet_filter_of_uniform (c : Cache) (k : String) (e : CacheEntry)
    (f : String × CacheEntry → Bool)
    (hall : ∀ p ∈ c, p.1 = k → p.2 = e) (hget : mapGet c k = some e)
    (hf : f (k, e) = true) :
    mapGet (c.filter f) k = some e := by
  induction c with
  | nil => simp [mapGet] at hget
  | cons p t ih =>
    by_cases hp : (p.1 == k) = true
    · have hk : p.1 = k := by simpa using hp
      have hpe : p.2 = e := hall p (by simp) hk
      have hpke : p = (k, e) := by
        obtain ⟨p1, p2⟩ := p
        simp only at hk hpe
        rw [hk, hpe]
      rw [List.filter_cons, hpke, if_pos hf]
      simp [mapGet]
    · have hget2 : mapGet t k = some e := by
        unfold mapGet at hget
        rwa [List.find?_cons_of_neg _ (by simpa using hp)] at hget
      have ih2 := ih (fun q hq hk2 => hall q (by simp [hq]) hk2) hget2
      rw [List.filter_cons]
      cases hfp : f p
      · rw [if_neg (by simp [hfp])]
        exact ih2
      · rw [if_pos (by simp [hfp])]
        unfold mapGet at ih2 ⊢
        rw [List.find?_cons_of_neg _ (by simpa using hp)]
        exact ih2

theorem mapGet_setCache_self (c : Cache) (k : String) (v : CacheValue) (now ttl : Nat) :
    mapGet (setCache c k v now ttl) k = some ⟨v, now⟩ := by
  simp only [setCache]
  by_cases hlen : 100 < (mapSet c k ⟨v, now⟩).length
  · rw [if_pos hlen]
    unfold clearOldCache
    exact mapGet_filter_of_uniform _ k ⟨v, now⟩ _ (mapSet_key_entries c k ⟨v, now⟩)
      (mapGet_mapSet_self c k ⟨v, now⟩) (by simp)
  · rw [if_neg hlen]; exact mapGet_mapSet_self c k ⟨v, now⟩

theorem mapGet_mapDelete_self (c : Cache) (k : String) :
    mapGet (mapDelete c k) k = none := by
  have h : (mapDelete c k).find? (fun p => p.1 == k) = none := by
    rw [List.find?_eq_none]
    intro p hp
    have := (List.mem_filter.mp hp).2
    simpa using this
  simp [mapGet, h]

theorem length_mapDelete (c : Cache) (k : String) (e : CacheEntry)
    (hnd : (c.map Prod.fst).Nodup) (hget : mapGet c k = some e) :
    (mapDelete c k).length + 1 = c.length := by
  induction c with
  | nil => simp [mapGet] at hget
  | cons p t ih =>
    simp only [List.map_cons, List.nodup_cons] at hnd
    by_cases hp : (p.1 == k) = true
    · have hk : p.1 = k := by simpa using hp
      unfold mapDelete
      rw [List.filter_cons, if_neg (by simp [hp])]
      have hfil : t.filter (fun q => !(q.1 == k)) = t := by
        rw [List.filter_eq_self]
        intro q hq
        have hqk : q.1 ≠ k := by
          intro hqe
          exact hnd.1 (by rw [hk, ← hqe]; exact List.mem_map_of_mem Prod.fst hq)
        simpa using hqk
      simp [hfil]
    · have hget2 : mapGet t k = some e := by
        unfold mapGet at hget
        rwa [List.find?_cons_of_neg _ (by simpa using hp)] at hget
      have ih2 := ih hnd.2 hget2
      unfold mapDelete at ih2 ⊢
      rw [List.filter_cons, if_pos (by simpa using hp)]
      simp only [List.length_cons]
      omega

theorem mem_cacheChecked (uc : Bool) (c : Cache) (k : String) (now ttl : Nat)
    (p : String × CacheEntry) (hp : p ∈ (cacheChecked uc c k now ttl).2) : p ∈ c := by
  unfold cacheChecked at hp
  by_cases h : uc = true
  · rw [if_pos h] at hp; exact mem_isValidCache c k now ttl p hp
  · rw [if_neg h] at hp; exact hp

theorem cacheChecked_true (uc : Bool) (c : Cache) (k : String) (now ttl : Nat)
    (h : (cacheChecked uc c k now ttl).1 = true) :
    ∃ e, mapGet c k = some e ∧ now - e.timestamp < ttl ∧
      (cacheChecked uc c k now ttl).2 = c := by
  unfold cacheChecked at h ⊢
  by_cases huc : uc = true
  · rw [if_pos huc] at h ⊢
    exact isValidCache_true c k now ttl h
  · rw [if_neg huc] at h; simp at h

theorem searchBooks_validation (query : Option String) (mr : Option Nat) (uc : Bool)
    (dm : Nat) (c : Cache) (ttl now : Nat) (net : NetResult SearchBody)
    (h : (!strTruthy query || decide ((jsTrim (query.getD "")).length < 2)) = true) :
    searchBooks query mr uc dm c ttl now net =
      ⟨⟨false, none, none, none, some "La búsqueda debe tener al menos 2 caracteres"⟩, c, 0⟩ := by
  simp only [searchBooks]
  rw [if_pos h]

theorem searchBooks_hit (query : Option String) (mr : Option Nat) (uc : Bool)
    (dm : Nat) (c : Cache) (ttl now : Nat) (net : NetResult SearchBody)
    (hv : (!strTruthy query || decide ((jsTrim (query.getD "")).length < 2)) = false)
    (hchk : (cacheChecked uc c (searchCacheKey (jsTrim (query.getD "")) (mr.getD dm)) now ttl).1
      = true) :
    searchBooks query mr uc dm c ttl now net =
      ⟨⟨true,
          (mapGet (cacheChecked uc c (searchCacheKey (jsTrim (query.getD "")) (mr.getD dm)) now ttl).2
            (searchCacheKey (jsTrim (query.getD "")) (mr.getD dm))).map (fun e => e.data),
          none, some true, none⟩,
        (cacheChecked uc c (searchCacheKey (jsTrim (query.getD "")) (mr.getD dm)) now ttl).2, 0⟩ := by
  simp only [searchBooks]
  rw [if_neg (by simp [hv]), if_pos hchk]

theorem searchBooks_miss_err (query : Option String) (mr : Option Nat) (uc : Bool)
    (dm : Nat) (c : Cache) (ttl now : Nat) (e : String)
    (hv : (!strTruthy query || decide ((jsTrim (query.getD "")).length < 2)) = false)
    (hchk : (cacheChecked uc c (searchCacheKey (jsTrim (query.getD "")) (mr.getD dm)) now ttl).1
      = false) :
    searchBooks query mr uc dm c ttl now (.err e) =
      ⟨⟨false, none, none, none, some e⟩,
        (cacheChecked uc c (searchCacheKey (jsTrim (query.getD "")) (mr.getD dm)) now ttl).2, 1⟩ := by
  simp only [searchBooks]
  rw [if_neg (by simp [hv]), if_neg (by simp [hchk])]

theorem searchBooks_miss_ok (query : Option String) (mr : Option Nat) (uc : Bool)
    (dm : Nat) (c : Cache) (ttl now : Nat) (body : SearchBody)
    (hv : (!strTruthy query || decide ((jsTrim (query.getD "")).length < 2)) = false)
    (hchk : (cacheChecked uc c (searchCacheKey (jsTrim (query.getD "")) (mr.getD dm)) now ttl).1
      = false) :
    searchBooks query mr uc dm c ttl now (.ok body) =
      ⟨⟨true, some (.list (transformBooksData (jsBooksOrEmpty body.books) now)),
          some (jsOrNat body.totalItems (transformBooksData (jsBooksOrEmpty body.books) now).length),
          some false, none⟩,
        if uc = true then
          setCache (cacheChecked uc c (searchCacheKey (jsTrim (query.getD "")) (mr.getD dm)) now ttl).2
            (searchCacheKey (jsTrim (query.getD "")) (mr.getD dm))
            (.list (transformBooksData (jsBooksOrEmpty body.books) now)) now ttl
        else (cacheChecked uc c (searchCacheKey (jsTrim (query.getD "")) (mr.getD dm)) now ttl).2,
        1⟩ := by
  simp only [searchBooks]
  rw [if_neg (by simp [hv]), if_neg (by simp [hchk])]

theorem getAllBooks_hit (uc : Bool) (c : Cache) (ttl now : Nat) (net : NetResult SearchBody)
    (hchk : (cacheChecked uc c "all_books" now ttl).1 = true) :
    getAllBooks uc c ttl now net =
      ⟨⟨true,
          (mapGet (cacheChecked uc c "all_books" now ttl).2 "all_books").map (fun e => e.data),
          none, some true, none⟩,
        (cacheChecked uc c "all_books" now ttl).2, 0⟩ := by
  simp only [getAllBooks]
  rw [if_pos hchk]

theorem getAllBooks_miss_err (uc : Bool) (c : Cache) (ttl now : Nat) (e : String)
    (hchk : (cacheChecked uc c "all_books" now ttl).1 = false) :
    getAllBooks uc c ttl now (.err e) =
      ⟨⟨false, none, none, none, some e⟩, (cacheChecked uc c "all_books" now ttl).2, 1⟩ := by
  simp only [getAllBooks]
  rw [if_neg (by simp [hchk])]

theorem getAllBooks_miss_ok (uc : Bool) (c : Cache) (ttl now : Nat) (body : SearchBody)
    (hchk : (cacheChecked uc c "all_books" now ttl).1 = false) :
    getAllBooks uc c ttl now (.ok body) =
      ⟨⟨true, some (.list (transformBooksData (jsBooksOrEmpty body.books) now)), none,
          some false, none⟩,
        if uc = true then
          setCache (cacheChecked uc c "all_books" now ttl).2 "all_books"
            (.list (transformBooksData (jsBooksOrEmpty body.books) now)) now ttl
        else (cacheChecked uc c "all_books" now ttl).2,
        1⟩ := by
  simp only [getAllBooks]
  rw [if_neg (by simp [hchk])]

theorem getBookDetails_validation (bookId : Option String) (uc : Bool) (c : Cache)
    (ttl now : Nat) (net : NetResult (Option RawBook))
    (h : strTruthy bookId = false) :
    getBookDetails bookId uc c ttl now net =
      ⟨⟨false, none, none, none, some "ID de libro es requerido"⟩, c, 0⟩ := by
  simp only [getBookDetails]
  rw [if_pos (by simp [h])]

theorem getBookDetails_hit (bookId : Option String) (uc : Bool) (c : Cache)
    (ttl now : Nat) (net : NetResult (Option RawBook))
    (hv : strTruthy bookId = true)
    (hchk : (cacheChecked uc c ("book_" ++ bookId.getD "") now ttl).1 = true) :
    getBookDetails bookId uc c ttl now net =
      ⟨⟨true,
          (mapGet (cacheChecked uc c ("book_" ++ bookId.getD "") now ttl).2
            ("book_" ++ bookId.getD "")).map (fun e => e.data),
          none, some true, none⟩,
        (cacheChecked uc c ("book_" ++ bookId.getD "") now ttl).2, 0⟩ := by
  simp only [getBookDetails]
  rw [if_neg (by simp [hv]), if_pos hchk]

theorem getBookDetails_miss_err (bookId : Option String) (uc : Bool) (c : Cache)
    (ttl now : Nat) (e : String)
    (hv : strTruthy bookId = true)
    (hchk : (cacheChecked uc c ("book_" ++ bookId.getD "") now ttl).1 = false) :
    getBookDetails bookId uc c ttl now (.err e) =
      ⟨⟨false, none, none, none, some e⟩,
        (cacheChecked uc c ("book_" ++ bookId.getD "") now ttl).2, 1⟩ := by
  simp only [getBookDetails]
  rw [if_neg (by simp [hv]), if_neg (by simp [hchk])]

theorem getBookDetails_miss_ok (bookId : Option String) (uc : Bool) (c : Cache)
    (ttl now : Nat) (rawBook : Option RawBook)
    (hv : strTruthy bookId = true)
    (hchk : (cacheChecked uc c ("book_" ++ bookId.getD "") now ttl).1 = false) :
    getBookDetails bookId uc c ttl now (.ok rawBook) =
      ⟨⟨true,
          some (match transformBookData rawBook now with
            | some b => CacheValue.book b
            | none => CacheValue.nullv),
          none, some false, none⟩,
        if uc = true then
          setCache (cacheChecked uc c ("book_" ++ bookId.getD "") now ttl).2
            ("book_" ++ bookId.getD "")
            (match transformBookData rawBook now with
              | some b => CacheValue.book b
              | none => CacheValue.nullv) now ttl
        else (cacheChecked uc c ("book_" ++ bookId.getD "") now ttl).2,
        1⟩ := by
  simp only [getBookDetails]
  rw [if_neg (by simp [hv]), if_neg (by simp [hchk])]

/-- Whether a raw list element passes the presence and id checks of
transformBookData. -/
def rawHasId : Option RawBook → Bool
  | none => false
  | some r => strTruthy r.id

theorem isSome_transformBookData (b : Option RawBook) (now : Nat) :
    (transformBookData b now).isSome = rawHasId b := by
  cases b with
  | none => rfl
  | some rb =>
    simp only [transformBookData, rawHasId, strTruthy]
    cases hid : rb.id with
    | none => rfl
    | some bid =>
      cases hbid : (bid == "") <;> simp [hbid]

theorem length_transformBooksData (bs : List (Option RawBook)) (now : Nat) :
    (transformBooksData (.arr bs) now).length = bs.countP rawHasId := by
  induction bs with
  | nil => rfl
  | cons b t ih =>
    simp only [transformBooksData] at ih ⊢
    rw [List.filterMap_map] at ih
    simp only [Function.comp_def, id] at ih
    rw [List.map_cons, List.filterMap_cons]
    cases hb : transformBookData b now with
    | none =>
      have hid : rawHasId b = false := by
        rw [← isSome_transformBookData b now, hb]; rfl
      simp [List.countP_cons, hid, ih]
    | some r =>
      have hid : rawHasId b = true := by
        rw [← isSome_transformBookData b now, hb]; rfl
      simp [List.countP_cons, hid, ih]

theorem find?_as_filter_head {α : Type} (p : α → Bool) (l : List α) :
    l.find? p = (l.filter p).head? := by
  induction l with
  | nil => rfl
  | cons a t ih =>
    cases ha : p a
    · rw [List.find?_cons_of_neg _ (by simp [ha]), List.filter_cons, if_neg (by simp [ha])]
      exact ih
    · rw [List.find?_cons_of_pos _ ha, List.filter_cons, if_pos (by simp [ha])]
      rfl

/-- A raw record carrying both ISBN kinds, the ISBN-10 entry listed
first. -/
def isbnBook : RawBook :=
  { id := some "x1", title := some "Foo", authors := some (.str "Jane Doe"),
    description := none, publishedDate := none, publisher := none, language := none,
    pageCount := none, categories := none,
    industryIdentifiers := some [⟨"ISBN_10", "1111111111"⟩, ⟨"ISBN_13", "9780000000000"⟩],
    imageLinks := none, previewLink := none, infoLink := none,
    averageRating := none, ratingsCount := none }

/-- A raw record lacking its required identifier. -/
def noIdBook : RawBook :=
  { id := none, title := some "Bad", authors := none, description := none,
    publishedDate := none, publisher := none, language := none, pageCount := none,
    categories := none, industryIdentifiers := none, imageLinks := none,
    previewLink := none, infoLink := none, averageRating := none, ratingsCount := none }

theorem countP_add_countP_not {α : Type} (p : α → Bool) (l : List α) :
    l.countP p + l.countP (fun a => !(p a)) = l.length := by
  induction l with
  | nil => rfl
  | cons a t ih =>
    simp only [List.countP_cons, List.length_cons]
    cases h : p a <;> simp [h] <;> omega

/-! The claims. -/

/-- C1 counterexample: the queries "Dune" and "dune" agree after trimming
and case normalization and use the same result-size bound, yet searchBooks
derives different cache keys for them, because key derivation trims the
query but never case-normalizes it. -/
theorem C1_counterexample :
    jsToLower (jsTrim "Dune") = jsToLower (jsTrim "dune") ∧
    searchCacheKey (jsTrim "Dune") 5 ≠ searchCacheKey (jsTrim "dune") 5 :=
  ⟨by decide, by decide⟩

/-- C1 (amended): two search requests with the same trimmed query text
(the code applies no case normalization) and equal result-size bounds
derive the same cache key, and two requests that differ only in their
maxResults bound derive different cache keys. -/
theorem C1_key_determinism_amended :
    (∀ (q1 q2 : String) (m : Nat), jsTrim q1 = jsTrim q2 →
        searchCacheKey (jsTrim q1) m = searchCacheKey (jsTrim q2) m) ∧
    (∀ (q : String) (m1 m2 : Nat), m1 ≠ m2 →
        searchCacheKey q m1 ≠ searchCacheKey q m2) := by
  constructor
  · intro q1 q2 m h
    rw [h]
  · intro q m1 m2 hne hkey
    apply hne
    apply repr_injective
    have hd := congrArg String.data hkey
    simp only [searchCacheKey, string_data_append] at hd
    exact List.append_cancel_left hd

/-- C1 witness: a concrete instantiation of both halves of the amended
key-determinism statement. -/
theorem C1_witness :
    searchCacheKey (jsTrim " dune ") 5 = searchCacheKey (jsTrim "dune") 5 ∧
    searchCacheKey "dune" 5 ≠ searchCacheKey "dune" 7 :=
  ⟨C1_key_determinism_amended.1 " dune " "dune" 5 (by decide),
   C1_key_determinism_amended.2 "dune" 5 7 (by decide)⟩

/-- C3 counterexample: for a record listing an ISBN-10 entry before an
ISBN-13 entry, the normalized isbn is the ISBN-10 identifier even though
an ISBN-13 entry is present, contradicting the claimed ISBN-13 priority. -/
theorem C3_counterexample :
    (⟨"ISBN_13", "9780000000000"⟩ : IndustryIdentifier) ∈ isbnBook.industryIdentifiers.getD [] ∧
    (transformBookData (some isbnBook) 0).map BookRecord.isbn = some (some "1111111111") ∧
    ("1111111111" : String) ≠ "9780000000000" :=
  ⟨by decide, by decide, by decide⟩

/-- Spec-style restatement of the isbn choice for the amended C3: the
first identifier in list order whose type is ISBN-13 or ISBN-10. -/
def isbnFirstOfEither (ids : List IndustryIdentifier) : Option String :=
  match (ids.filter (fun i => i.type == "ISBN_13" || i.type == "ISBN_10")).head? with
  | some i => if i.identifier = "" then none else some i.identifier
  | none => none

theorem isbnOf_eq_first (ids : List IndustryIdentifier) :
    isbnOf ids = isbnFirstOfEither ids := by
  unfold isbnOf isbnFirstOfEither
  rw [find?_as_filter_head]
  cases h : (ids.filter (fun i => i.type == "ISBN_13" || i.type == "ISBN_10")).head? with
  | none => rfl
  | some i =>
    simp only [jsOrNull, strTruthy]
    by_cases hi : i.identifier = ""
    · simp [hi]
    · simp [hi]

/-- C3 (amended): the normalized isbn equals the identifier of the first
entry of industryIdentifiers whose type is ISBN-13 or ISBN-10, taken in
list order with no priority between the two types (and is absent when no
such entry exists or the chosen identifier is empty). -/
theorem C3_isbn_first_match_amended :
    ∀ (b : RawBook) (now : Nat) (r : BookRecord),
      transformBookData (some b) now = some r →
      r.isbn = isbnFirstOfEither (b.industryIdentifiers.getD []) := by
  intro b now r h
  simp only [transformBookData] at h
  cases hid : b.id with
  | none => simp [hid] at h
  | some bid =>
    simp only [hid] at h
    by_cases hbid : (bid == "") = true
    · simp [hbid] at h
    · rw [if_neg hbid] at h
      have hr := Option.some.inj h
      rw [← hr]
      exact isbnOf_eq_first _

/-- C3 witness: the amended statement applied to the two-identifier
record. -/
theorem C3_witness :
    (transformBookData (some isbnBook) 0).map BookRecord.isbn =
      some (isbnFirstOfEither (isbnBook.industryIdentifiers.getD [])) := by
  cases h : transformBookData (some isbnBook) 0 with
  | none => exact absurd h (by decide)
  | some r =>
    simp only [Option.map_some']
    exact congrArg some (C3_isbn_first_match_amended isbnBook 0 r h)

/-- Forget the transformation timestamp of a normalized record. -/
def eraseTransformedAt (r : BookRecord) : BookRecord := { r with transformedAt := 0 }

/-- C6 counterexample: normalizing the same raw record at two different
clock readings produces records that are not structurally equal, because
the transformedAt field stores the wall-clock time of the
transformation. -/
theorem C6_counterexample :
    transformBookData (some isbnBook) 0 ≠ transformBookData (some isbnBook) 1 := by
  decide

/-- C6 (amended): normalizing the same raw record twice produces records
that agree on every field except the transformedAt debugging timestamp;
in particular the results are structurally equal whenever the two
normalizations read the same clock value. -/
theorem C6_normalization_idempotent_amended :
    ∀ (b : Option RawBook) (t1 t2 : Nat),
      (transformBookData b t1).map eraseTransformedAt =
        (transformBookData b t2).map eraseTransformedAt := by
  intro b t1 t2
  cases b with
  | none => rfl
  | some rb =>
    simp only [transformBookData]
    cases hid : rb.id with
    | none => rfl
    | some bid =>
      by_cases hbid : (bid == "") = true
      · simp [hbid]
      · simp [hbid, eraseTransformedAt]

/-- C8: a batch in which exactly one raw record fails the identifier check
normalizes to a list exactly one shorter than the input: the bad record is
dropped and every other record survives; the operation is total. -/
theorem C8_single_bad_record_isolated :
    ∀ (bs : List (Option RawBook)) (now : Nat),
      bs.countP (fun b => !(rawHasId b)) = 1 →
      (transformBooksData (.arr bs) now).length = bs.length - 1 := by
  intro bs now h
  have h1 := length_transformBooksData bs now
  have h2 := countP_add_countP_not rawHasId bs
  omega

/-- C8 witness: a three-record batch with one id-less record yields two
normalized records. -/
theorem C8_witness :
    (transformBooksData (.arr [some isbnBook, some noIdBook, some isbnBook]) 0).length = 2 :=
  C8_single_bad_record_isolated [some isbnBook, some noIdBook, some isbnBook] 0 (by decide)

/-- C9: a query whose trimmed length is below two characters (absent and
empty queries included) makes searchBooks return a validation failure with
the fixed error message, leave the cache untouched, and make no outbound
request. -/
theorem C9_validation_short_circuit :
    ∀ (query : Option String) (mr : Option Nat) (uc : Bool) (dm : Nat) (c : Cache)
      (ttl now : Nat) (net : NetResult SearchBody),
      (match query with
        | none => True
        | some q => (jsTrim q).length < 2) →
      searchBooks query mr uc dm c ttl now net =
        ⟨⟨false, none, none, none, some "La búsqueda debe tener al menos 2 caracteres"⟩, c, 0⟩ := by
  intro query mr uc dm c ttl now net h
  apply searchBooks_validation
  cases query with
  | none => decide
  | some q =>
    have hq : (jsTrim q).length < 2 := h
    simp [hq]

/-- C9 witness: the one-character query of the spec scenario. -/
theorem C9_witness :
    searchBooks (some "a") none true 10 [] 300000 0 (.err "net") =
      ⟨⟨false, none, none, none, some "La búsqueda debe tener al menos 2 caracteres"⟩, [], 0⟩ :=
  C9_validation_short_circuit (some "a") none true 10 [] 300000 0 (.err "net") (by decide)

/-- One hundred cache entries, all stored at time zero. -/
def cache100 : Cache := (List.range 100).map (fun i => (Nat.repr i, ⟨CacheValue.nullv, 0⟩))

/-- C4 counterexample: inserting a 101st entry at the moment the 100 old
entries are exactly TTL old (so they are expired for reads, their age not
being less than the TTL) triggers the sweep, yet an old entry survives it:
the sweep removes only entries strictly older than the TTL. -/
theorem C4_counterexample :
    100 < (mapSet cache100 "fresh" ⟨CacheValue.nullv, 300000⟩).length ∧
    300000 ≤ 300000 - (0 : Nat) ∧
    mapGet (setCache cache100 "fresh" CacheValue.nullv 300000 300000) (Nat.repr 0) =
      some ⟨CacheValue.nullv, 0⟩ :=
  ⟨by decide, by decide, by decide⟩

/-- C4 (amended): when an insertion brings the entry count above 100, the
triggered sweep keeps exactly the entries whose age is at most the TTL:
every entry strictly older than the TTL is removed and every other entry
survives — in particular every still-fresh entry survives, but so does the
boundary entry whose age equals the TTL exactly, although it is already
expired for reads. -/
theorem C4_overflow_sweep_amended :
    ∀ (c : Cache) (k : String) (v : CacheValue) (now ttl : Nat)
      (p : String × CacheEntry),
      100 < (mapSet c k ⟨v, now⟩).length →
      (p ∈ setCache c k v now ttl ↔
        p ∈ mapSet c k ⟨v, now⟩ ∧ now - p.2.timestamp ≤ ttl) := by
  intro c k v now ttl p h
  simp only [setCache]
  rw [if_pos h]
  simp [clearOldCache, List.mem_filter, Nat.not_lt]

/-- C4 witness: the amended sweep statement instantiated on a concrete
overflowing insertion, showing a surviving entry. -/
theorem C4_witness :
    (Nat.repr 0, (⟨CacheValue.nullv, 0⟩ : CacheEntry)) ∈
      setCache cache100 "fresh" CacheValue.nullv 300000 400000 :=
  (C4_overflow_sweep_amended cache100 "fresh" CacheValue.nullv 300000 400000
      (Nat.repr 0, ⟨CacheValue.nullv, 0⟩) (by decide)).mpr ⟨by decide, by decide⟩

/-- C5: reading an entry whose age has reached the TTL reports a miss and
deletes the entry — the following stats call counts one entry fewer and a
lookup no longer finds it — and each of the three public operations serves
a cached value only from an entry that is still fresh at read time, so no
operation returns an expired value. -/
theorem C5_ttl_expiry_on_read :
    (∀ (c : Cache) (k : String) (now ttl : Nat) (e : CacheEntry),
       mapGet c k = some e → ttl ≤ now - e.timestamp →
       (isValidCache c k now ttl).1 = false ∧
       mapGet (isValidCache c k now ttl).2 k = none ∧
       ((c.map Prod.fst).Nodup →
         (getCacheStats (isValidCache c k now ttl).2 ttl).entries + 1 =
           (getCacheStats c ttl).entries)) ∧
    (∀ (query : Option String) (mr : Option Nat) (uc : Bool) (dm : Nat) (c : Cache)
       (ttl now : Nat) (net : NetResult SearchBody),
       (searchBooks query mr uc dm c ttl now net).result.fromCache = some true →
       ∃ e, mapGet c (searchCacheKey (jsTrim (query.getD "")) (mr.getD dm)) = some e ∧
         now - e.timestamp < ttl) ∧
    (∀ (uc : Bool) (c : Cache) (ttl now : Nat) (net : NetResult SearchBody),
       (getAllBooks uc c ttl now net).result.fromCache = some true →
       ∃ e, mapGet c "all_books" = some e ∧ now - e.timestamp < ttl) ∧
    (∀ (bid : Option String) (uc : Bool) (c : Cache) (ttl now : Nat)
       (net : NetResult (Option RawBook)),
       (getBookDetails bid uc c ttl now net).result.fromCache = some true →
       ∃ e, mapGet c ("book_" ++ bid.getD "") = some e ∧ now - e.timestamp < ttl) := by
  refine ⟨?_, ?_, ?_, ?_⟩
  · intro c k now ttl e hget hexp
    have hnl : ¬ (now - e.timestamp < ttl) := by omega
    have hiv : isValidCache c k now ttl = (false, mapDelete c k) := by
      unfold isValidCache
      simp [hget, hnl]
    rw [hiv]
    refine ⟨rfl, mapGet_mapDelete_self c k, ?_⟩
    intro hnd
    simp only [getCacheStats]
    exact length_mapDelete c k e hnd hget
  · intro query mr uc dm c ttl now net h
    by_cases hvq : (!strTruthy query || decide ((jsTrim (query.getD "")).length < 2)) = true
    · rw [searchBooks_validation query mr uc dm c ttl now net hvq] at h
      simp at h
    · have hv := Bool.eq_false_iff.mpr hvq
      by_cases hchk :
          (cacheChecked uc c (searchCacheKey (jsTrim (query.getD "")) (mr.getD dm)) now ttl).1
            = true
      · obtain ⟨e, hget, hfresh, _⟩ := cacheChecked_true uc c _ now ttl hchk
        exact ⟨e, hget, hfresh⟩
      · have hchkf := Bool.eq_false_iff.mpr hchk
        cases net with
        | err e =>
          rw [searchBooks_miss_err query mr uc dm c ttl now e hv hchkf] at h
          simp at h
        | ok body =>
          rw [searchBooks_miss_ok query mr uc dm c ttl now body hv hchkf] at h
          simp at h
  · intro uc c ttl now net h
    by_cases hchk : (cacheChecked uc c "all_books" now ttl).1 = true
    · obtain ⟨e, hget, hfresh, _⟩ := cacheChecked_true uc c _ now ttl hchk
      exact ⟨e, hget, hfresh⟩
    · have hchkf := Bool.eq_false_iff.mpr hchk
      cases net with
      | err e =>
        rw [getAllBooks_miss_err uc c ttl now e hchkf] at h
        simp at h
      | ok body =>
        rw [getAllBooks_miss_ok uc c ttl now body hchkf] at h
        simp at h
  · intro bid uc c ttl now net h
    by_cases hvb : strTruthy bid = true
    · by_cases hchk : (cacheChecked uc c ("book_" ++ bid.getD "") now ttl).1 = true
      · obtain ⟨e, hget, hfresh, _⟩ := cacheChecked_true uc c _ now ttl hchk
        exact ⟨e, hget, hfresh⟩
      · have hchkf := Bool.eq_false_iff.mpr hchk
        cases net with
        | err e =>
          rw [getBookDetails_miss_err bid uc c ttl now e hvb hchkf] at h
          simp at h
        | ok rawBook =>
          rw [getBookDetails_miss_ok bid uc c ttl now rawBook hvb hchkf] at h
          simp at h
    · have hvf := Bool.eq_false_iff.mpr hvb
      rw [getBookDetails_validation bid uc c ttl now net hvf] at h
      simp at h

/-- C5 witness: an entry exactly TTL old misses and is deleted on read. -/
theorem C5_witness :
    (isValidCache [("k", (⟨CacheValue.nullv, 0⟩ : CacheEntry))] "k" 300000 300000).1 = false ∧
    mapGet (isValidCache [("k", (⟨CacheValue.nullv, 0⟩ : CacheEntry))] "k" 300000 300000).2 "k"
      = none :=
  ⟨(C5_ttl_expiry_on_read.1 [("k", ⟨CacheValue.nullv, 0⟩)] "k" 300000 300000
      ⟨CacheValue.nullv, 0⟩ (by decide) (by decide)).1,
   (C5_ttl_expiry_on_read.1 [("k", ⟨CacheValue.nullv, 0⟩)] "k" 300000 300000
      ⟨CacheValue.nullv, 0⟩ (by decide) (by decide)).2.1⟩

/-- A one-entry cache holding a fresh search result for the dune query. -/
def duneCache : Cache := [(searchCacheKey "dune" 5, ⟨CacheValue.list [], 0⟩)]

/-- C7 counterexample: a search served from the cache succeeds but carries
no totalItems field, refuting the claim that every successful result
contains a totalItems count. -/
theorem C7_counterexample :
    (searchBooks (some "dune") (some 5) true 10 duneCache 300000 0 (.err "x")).result.success
      = true ∧
    (searchBooks (some "dune") (some 5) true 10 duneCache 300000 0 (.err "x")).result.fromCache
      = some true ∧
    (searchBooks (some "dune") (some 5) true 10 duneCache 300000 0 (.err "x")).result.totalItems
      = none :=
  ⟨by decide, by decide, by decide⟩

/-- C7 (amended): every successful searchBooks result carries the success
flag, a data field and a fromCache indicator; the totalItems count is
present exactly on results obtained from the network — a result served
from the cache carries no totalItems field. -/
theorem C7_result_shape_amended :
    ∀ (query : Option String) (mr : Option Nat) (uc : Bool) (dm : Nat) (c : Cache)
      (ttl now : Nat) (net : NetResult SearchBody),
      (searchBooks query mr uc dm c ttl now net).result.success = true →
      (searchBooks query mr uc dm c ttl now net).result.data.isSome = true ∧
      (searchBooks query mr uc dm c ttl now net).result.fromCache.isSome = true ∧
      ((searchBooks query mr uc dm c ttl now net).result.fromCache = some false →
        (searchBooks query mr uc dm c ttl now net).result.totalItems.isSome = true) ∧
      ((searchBooks query mr uc dm c ttl now net).result.fromCache = some true →
        (searchBooks query mr uc dm c ttl now net).result.totalItems = none) := by
  intro query mr uc dm c ttl now net h
  by_cases hvq : (!strTruthy query || decide ((jsTrim (query.getD "")).length < 2)) = true
  · rw [searchBooks_validation query mr uc dm c ttl now net hvq] at h
    simp at h
  · have hv := Bool.eq_false_iff.mpr hvq
    by_cases hchk :
        (cacheChecked uc c (searchCacheKey (jsTrim (query.getD "")) (mr.getD dm)) now ttl).1
          = true
    · obtain ⟨e, hget, _, hsame⟩ := cacheChecked_true uc c _ now ttl hchk
      rw [searchBooks_hit query mr uc dm c ttl now net hv hchk, hsame]
      simp [hget]
    · have hchkf := Bool.eq_false_iff.mpr hchk
      cases net with
      | err e =>
        rw [searchBooks_miss_err query mr uc dm c ttl now e hv hchkf] at h
        simp at h
      | ok body =>
        rw [searchBooks_miss_ok query mr uc dm c ttl now body hv hchkf]
        simp

/-- C7 witness: the amended shape statement instantiated on a concrete
cache hit. -/
theorem C7_witness :
    (searchBooks (some "dune") (some 5) true 10 duneCache 300000 0 (.err "x")).result.data.isSome
      = true :=
  (C7_result_shape_amended (some "dune") (some 5) true 10 duneCache 300000 0 (.err "x")
    (by decide)).1

/-- C2 counterexample: a fetched single record that fails normalization is
nevertheless stored — getBookDetails caches a null entry for it. -/
theorem C2_counterexample :
    transformBookData (some noIdBook) 0 = none ∧
    mapGet (getBookDetails (some "b1") true [] 300000 0 (.ok (some noIdBook))).cache "book_b1" =
      some ⟨CacheValue.nullv, 0⟩ :=
  ⟨by decide, by decide⟩

/-- C2 (amended): no failed request ever stores a cache entry — after a
request error every entry of the resulting cache was already present
beforehand, in each of the three operations — and searchBooks and
getAllBooks each store exactly the successfully normalized list on a
successful request; but getBookDetails also stores an entry when
single-record normalization fails, with a null value. -/
theorem C2_never_cache_failures_amended :
    (∀ (query : Option String) (mr : Option Nat) (uc : Bool) (dm : Nat) (c : Cache)
       (ttl now : Nat) (e : String) (p : String × CacheEntry),
       p ∈ (searchBooks query mr uc dm c ttl now (.err e)).cache → p ∈ c) ∧
    (∀ (uc : Bool) (c : Cache) (ttl now : Nat) (e : String) (p : String × CacheEntry),
       p ∈ (getAllBooks uc c ttl now (.err e)).cache → p ∈ c) ∧
    (∀ (bid : Option String) (uc : Bool) (c : Cache) (ttl now : Nat) (e : String)
       (p : String × CacheEntry),
       p ∈ (getBookDetails bid uc c ttl now (.err e)).cache → p ∈ c) ∧
    (∀ (query : Option String) (mr : Option Nat) (dm : Nat) (c : Cache)
       (ttl now : Nat) (body : SearchBody),
       (!strTruthy query || decide ((jsTrim (query.getD "")).length < 2)) = false →
       (cacheChecked true c (searchCacheKey (jsTrim (query.getD "")) (mr.getD dm)) now ttl).1
         = false →
       mapGet (searchBooks query mr true dm c ttl now (.ok body)).cache
           (searchCacheKey (jsTrim (query.getD "")) (mr.getD dm)) =
         some ⟨.list (transformBooksData (jsBooksOrEmpty body.books) now), now⟩) ∧
    (∀ (c : Cache) (ttl now : Nat) (body : SearchBody),
       (cacheChecked true c "all_books" now ttl).1 = false →
       mapGet (getAllBooks true c ttl now (.ok body)).cache "all_books" =
         some ⟨.list (transformBooksData (jsBooksOrEmpty body.books) now), now⟩) ∧
    (∀ (bid : Option String) (c : Cache) (ttl now : Nat) (raw : Option RawBook),
       strTruthy bid = true →
       (cacheChecked true c ("book_" ++ bid.getD "") now ttl).1 = false →
       transformBookData raw now = none →
       mapGet (getBookDetails bid true c ttl now (.ok raw)).cache ("book_" ++ bid.getD "") =
         some ⟨CacheValue.nullv, now⟩) := by
  refine ⟨?_, ?_, ?_, ?_, ?_, ?_⟩
  · intro query mr uc dm c ttl now e p hp
    by_cases hvq : (!strTruthy query || decide ((jsTrim (query.getD "")).length < 2)) = true
    · rw [searchBooks_validation query mr uc dm c ttl now (.err e) hvq] at hp
      exact hp
    · have hv := Bool.eq_false_iff.mpr hvq
      by_cases hchk :
          (cacheChecked uc c (searchCacheKey (jsTrim (query.getD "")) (mr.getD dm)) now ttl).1
            = true
      · rw [searchBooks_hit query mr uc dm c ttl now (.err e) hv hchk] at hp
        exact mem_cacheChecked uc c _ now ttl p hp
      · rw [searchBooks_miss_err query mr uc dm c ttl now e hv
          (Bool.eq_false_iff.mpr hchk)] at hp
        exact mem_cacheChecked uc c _ now ttl p hp
  · intro uc c ttl now e p hp
    by_cases hchk : (cacheChecked uc c "all_books" now ttl).1 = true
    · rw [getAllBooks_hit uc c ttl now (.err e) hchk] at hp
      exact mem_cacheChecked uc c _ now ttl p hp
    · rw [getAllBooks_miss_err uc c ttl now e (Bool.eq_false_iff.mpr hchk)] at hp
      exact mem_cacheChecked uc c _ now ttl p hp
  · intro bid uc c ttl now e p hp
    by_cases hvb : strTruthy bid = true
    · by_cases hchk : (cacheChecked uc c ("book_" ++ bid.getD "") now ttl).1 = true
      · rw [getBookDetails_hit bid uc c ttl now (.err e) hvb hchk] at hp
        exact mem_cacheChecked uc c _ now ttl p hp
      · rw [getBookDetails_miss_err bid uc c ttl now e hvb (Bool.eq_false_iff.mpr hchk)] at hp
        exact mem_cacheChecked uc c _ now ttl p hp
    · rw [getBookDetails_validation bid uc c ttl now (.err e)
        (Bool.eq_false_iff.mpr hvb)] at hp
      exact hp
  · intro query mr dm c ttl now body hv hchk
    rw [searchBooks_miss_ok query mr true dm c ttl now body hv hchk]
    simp only [if_pos rfl]
    exact mapGet_setCache_self _ _ _ now ttl
  · intro c ttl now body hchk
    rw [getAllBooks_miss_ok true c ttl now body hchk]
    simp only [if_pos rfl]
    exact mapGet_setCache_self _ _ _ now ttl
  · intro bid c ttl now raw hvb hchk htrans
    rw [getBookDetails_miss_ok bid true c ttl now raw hvb hchk, htrans]
    simp only [if_pos rfl]
    exact mapGet_setCache_self _ _ _ now ttl

/-- C2 witness: the getBookDetails clause of the amended statement on a
concrete id-less record. -/
theorem C2_witness :
    mapGet (getBookDetails (some "b2") true [] 300000 5 (.ok (some noIdBook))).cache "book_b2" =
      some ⟨CacheValue.nullv, 5⟩ :=
  C2_never_cache_failures_amended.2.2.2.2.2 (some "b2") [] 300000 5 (some noIdBook)
    (by decide) (by decide) (by decide)

/-- C10: a successful response whose body lacks a books array (either the
field is absent or it is not an array) makes searchBooks and getAllBooks
return success with an empty data list rather than a malformed-response
failure. -/
theorem C10_missing_books_array :
    (∀ (query : Option String) (mr : Option Nat) (uc : Bool) (dm : Nat) (c : Cache)
       (ttl now : Nat) (body : SearchBody),
       (!strTruthy query || decide ((jsTrim (query.getD "")).length < 2)) = false →
       (cacheChecked uc c (searchCacheKey (jsTrim (query.getD "")) (mr.getD dm)) now ttl).1
         = false →
       (body.books = BooksField.missing ∨ body.books = BooksField.notArray) →
       (searchBooks query mr uc dm c ttl now (.ok body)).result.success = true ∧
       (searchBooks query mr uc dm c ttl now (.ok body)).result.data = some (.list [])) ∧
    (∀ (uc : Bool) (c : Cache) (ttl now : Nat) (body : SearchBody),
       (cacheChecked uc c "all_books" now ttl).1 = false →
       (body.books = BooksField.missing ∨ body.books = BooksField.notArray) →
       (getAllBooks uc c ttl now (.ok body)).result.success = true ∧
       (getAllBooks uc c ttl now (.ok body)).result.data = some (.list [])) := by
  constructor
  · intro query mr uc dm c ttl now body hv hchk hbooks
    have hT : transformBooksData (jsBooksOrEmpty body.books) now = [] := by
      rcases hbooks with hb | hb <;> rw [hb] <;> rfl
    rw [searchBooks_miss_ok query mr uc dm c ttl now body hv hchk]
    simp [hT]
  · intro uc c ttl now body hchk hbooks
    have hT : transformBooksData (jsBooksOrEmpty body.books) now = [] := by
      rcases hbooks with hb | hb <;> rw [hb] <;> rfl
    rw [getAllBooks_miss_ok uc c ttl now body hchk]
    simp [hT]

/-- C10 witness: a body without a books field yields a successful empty
search result. -/
theorem C10_witness :
    (searchBooks (some "dune") none true 10 [] 300000 0
        (.ok ⟨BooksField.missing, none⟩)).result.data = some (.list []) :=
  (C10_missing_books_array.1 (some "dune") none true 10 [] 300000 0 ⟨BooksField.missing, none⟩
    (by decide) (by decide) (Or.inl rfl)).2

end BooksApi
